import Mathlib

/-!
Verification development for the RRD connector (src/pkg/connector/rrd.go).

The file shallowly embeds the connector's data model, the query compiler
(rrdGetData), the statistics request builder (rrdSetGraph), the result merger
(rrdParseInfo), the discovery catalog update (Refresh) and the connector
factory (init), together with a small operational model of the time-series
engine's reverse-Polish expression evaluator, and proves properties of them.

Conventions:
  - Go float64 values are modelled as rationals; the engine's unknown-value
    marker (NaN / "UN") is modelled as `Option.none`.
  - Go maps are modelled as functions into `Option`.
  - Temporary expression identifiers ("serie0", "serie0-tmp3-ori", ...) are
    modelled by the structured type `VName`; `VName.render` produces the
    exact strings the Go code builds with fmt.Sprintf.
-/

/-- Metric descriptor held by the catalog (rrd.go lines 18-21). -/
structure rrdMetric where
  Dataset : String
  FilePath : String
deriving DecidableEq

/-- The connector's metrics map `map[string]map[string]*rrdMetric`
(rrd.go line 29), modelled as a two-level partial function. -/
def Catalog := String → String → Option rrdMetric

/-- Map access `connector.metrics[src][name]` followed by pointer
dereference (rrd.go lines 206-207).  The Go code dereferences the entry
without a presence check; an absent entry would be a nil-pointer panic.
None of the theorems below exercises an absent entry, so the model reads
the entry with an inert default descriptor. -/
def catGet (cat : Catalog) (src name : String) : rrdMetric :=
  (cat src name).getD { Dataset := "", FilePath := "" }

/-- Modelled from the spec: a series reference inside a group query
(spec section 3, SeriesRef), carrying the fields rrd.go reads:
serie.Name, serie.Metric (nullable), serie.Metric.SourceName,
serie.Metric.Name, serie.Scale. -/
structure MetricRef where
  SourceName : String
  Name : String
deriving DecidableEq

/-- Modelled from the spec: a series of a group query (spec section 3). -/
structure Serie where
  Name : String
  Metric : Option MetricRef
  Scale : ℚ
deriving DecidableEq

/-- Modelled from the spec: aggregation operator None (enum value;
the concrete integers are immaterial, only identity is used). -/
def OperGroupTypeNone : Int := 0

/-- Modelled from the spec: aggregation operator Avg. -/
def OperGroupTypeAvg : Int := 1

/-- Modelled from the spec: aggregation operator Sum. -/
def OperGroupTypeSum : Int := 2

/-- Modelled from the spec: a group query (spec section 3, GroupQuery).
The Go field `Type` is called `Typ` here because `Type` is reserved in
Lean. -/
structure GroupQuery where
  Name : String
  Typ : Int
  Series : List Serie
  Scale : ℚ
deriving DecidableEq

/-- Number of series of a query whose metric reference is resolvable
(non-nil); used to state spec claims that talk about resolvable series. -/
def resolvableCount (q : GroupQuery) : Nat :=
  (q.Series.filter (fun s => s.Metric.isSome)).length

/-- Modelled from the spec: a plot value is a float64 that may be the
canonical not-a-number sentinel (spec section 4.4). -/
inductive PlotValue
  | nan
  | num (q : ℚ)
deriving DecidableEq

/-- Modelled from the spec: per-series query output (spec section 3,
PlotResult): ordered samples plus a statistics map. -/
structure PlotResult where
  Plots : List PlotValue
  Info : String → Option PlotValue

/-- The `map[string]*PlotResult` result map of rrdGetData. -/
def DataMap := String → Option PlotResult

/- ===== connector factory (rrd.go lines 32-63) ===== -/

/-- A value of the Go configuration map `map[string]interface{}`: either a
string or some other dynamic value. -/
inductive ConfigValue
  | str (s : String)
  | other
deriving DecidableEq

/-- Lookup in the configuration map. -/
def cfgLookup : List (String × ConfigValue) → String → Option ConfigValue
  | [], _ => none
  | (k, v) :: rest, key => if k = key then some v else cfgLookup rest key

/-- The Go two-valued type assertion `config[k].(string)`: yields the string
when the entry is present and is a string, and fails otherwise (also when
the entry is absent, in which case the asserted value is the nil
interface). -/
def asGoString : Option ConfigValue → Option String
  | some (ConfigValue.str s) => some s
  | _ => none

/-- The connector value built by the factory (rrd.go lines 24-30); the
output channel and the freshly created empty metrics map are runtime
plumbing and are not carried here. -/
structure RRDConnector where
  Path : String
  Pattern : String
  Daemon : String
deriving DecidableEq

/-- The factory registered for "rrd" (rrd.go lines 33-62): presence checks
for path and pattern, then string type assertions for path, pattern and
daemon (daemon has no presence check, so an absent daemon fails its type
assertion).  Error strings follow the Go messages with the quoting marks
dropped. -/
def rrdFactory (config : List (String × ConfigValue)) : Except String RRDConnector :=
  if (cfgLookup config "path").isNone then
    Except.error "missing path mandatory connector setting"
  else if (cfgLookup config "pattern").isNone then
    Except.error "missing pattern mandatory connector setting"
  else
    match asGoString (cfgLookup config "path") with
    | none => Except.error "connector setting path should be a string"
    | some p =>
      match asGoString (cfgLookup config "pattern") with
      | none => Except.error "connector setting pattern should be a string"
      | some pat =>
        match asGoString (cfgLookup config "daemon") with
        | none => Except.error "connector setting daemon should be a string"
        | some d => Except.ok { Path := p, Pattern := pat, Daemon := d }

/- ===== Refresh catalog update (rrd.go lines 131-147) ===== -/

/-- The catalog before any discovery: the empty metrics map. -/
def emptyCatalog : Catalog := fun _ _ => none

/-- One catalog entry assignment
`connector.metrics[sourceName][metricFullName] = &rrdMetric{...}`
(rrd.go line 147). -/
def catInsert (m : Catalog) (src name : String) (d : rrdMetric) : Catalog :=
  fun s n => if s = src ∧ n = name then some d else m s n

/-- The effect of one Refresh run on the metrics map (rrd.go lines
131-147): every discovered (source, metricFullName, descriptor) triple is
inserted into the connector's EXISTING map, which Refresh never clears or
replaces beforehand. -/
def refreshCatalog (m : Catalog) (found : List (String × String × rrdMetric)) : Catalog :=
  found.foldl (fun acc e => catInsert acc e.1 e.2.1 e.2.2) m

/- ===== strings.SplitN and rrdParseInfo (rrd.go lines 359-374) ===== -/

/-- First split of a character list at a comma: `some (before, after)` when
the list contains a comma, `none` otherwise. -/
def breakComma : List Char → Option (List Char × List Char)
  | [] => none
  | c :: cs =>
    if c = ',' then some ([], cs)
    else
      match breakComma cs with
      | none => none
      | some (a, r) => some (c :: a, r)

/-- Go strings.SplitN with separator "," and limit k+1 chunks, on character
lists: split at the first k commas, keep the remainder whole. -/
def goSplitChars : Nat → List Char → List (List Char)
  | 0, cs => [cs]
  | k + 1, cs =>
    match breakComma cs with
    | none => [cs]
    | some (a, r) => a :: goSplitChars k r

/-- `strings.SplitN(value, ",", 3)` (rrd.go line 361). -/
def goSplitN3 (s : String) : List String :=
  (goSplitChars 2 s.data).map (fun cs => String.mk cs)

/-- Number of commas of a string. -/
def countCommas (s : String) : Nat :=
  (s.data.filter (fun c => c = ',')).length

/-- Insertion of one statistic value:
`data[chunks[0]].Info[chunks[1]] = value`, creating the PlotResult when
the label is new (rrd.go lines 368-372). -/
def updateInfo (data : DataMap) (label key : String) (v : PlotValue) : DataMap :=
  let pr := match data label with
            | some pr => pr
            | none => { Plots := [], Info := fun _ => none }
  fun l =>
    if l = label then
      some { Plots := pr.Plots, Info := fun k => if k = key then some v else pr.Info k }
    else data l

/-- Processing of one raw statistic line (rrd.go lines 360-372).
`pf` models the external strconv.ParseFloat: `none` when the value part
does not parse.  The Go code indexes `chunks[2]` unconditionally; a line
whose SplitN result has fewer than three chunks panics with an
out-of-range index, modelled by the `none` result. -/
def rrdParseInfoLine (pf : String → Option ℚ) (data : DataMap) (line : String) :
    Option DataMap :=
  let chunks := goSplitN3 line
  match chunks.get? 2 with
  | none => none
  | some c2 =>
    match chunks.get? 0, chunks.get? 1 with
    | some c0, some c1 =>
      let v := match pf c2 with
               | some f => PlotValue.num f
               | none => PlotValue.nan
      some (updateInfo data c0 c1 v)
    | _, _ => none

/-- rrdParseInfo over the whole list of printed statistic lines
(rrd.go lines 359-374). -/
def rrdParseInfo (pf : String → Option ℚ) (lines : List String) (data : DataMap) :
    Option DataMap :=
  match lines with
  | [] => some data
  | l :: rest =>
    match rrdParseInfoLine pf data l with
    | none => none
    | some d => rrdParseInfo pf rest d

/- ===== number formatting used by the compiler's fmt.Sprintf calls ===== -/

/-- Round-half-to-even, the rounding Go's %f formatting applies. -/
def roundHalfEven (x : ℚ) : Int :=
  let f : Int := ⌊x⌋
  let r : ℚ := x - (f : ℚ)
  if r < 1 / 2 then f
  else if 1 / 2 < r then f + 1
  else if f % 2 = 0 then f else f + 1

/-- Left-pad a digit string with zeros to the given width. -/
def padZeros (w : Nat) (s : String) : String :=
  String.mk (List.replicate (w - s.length) '0') ++ s

/-- Go fmt `%.<prec>f` of a float, on the rational model: scale by
10^prec, round half to even, render with exactly `prec` digits after the
point (no point when prec = 0). -/
def goFmtFixed (prec : Nat) (q : ℚ) : String :=
  let scaled : Int := roundHalfEven (q * (10 : ℚ) ^ prec)
  let sign : String := if scaled < 0 then "-" else ""
  let n : Nat := scaled.natAbs
  if prec = 0 then sign ++ Nat.repr n
  else
    let base : Nat := 10 ^ prec
    sign ++ Nat.repr (n / base) ++ "." ++ padZeros prec (Nat.repr (n % base))

/-- The Go conversion float64 → int: truncation toward zero. -/
def truncQ (q : ℚ) : Int := if 0 ≤ q then ⌊q⌋ else ⌈q⌉

/- ===== temporary expression identifiers ===== -/

/-- Structured form of the temporary identifiers the compiler builds with
fmt.Sprintf.  `render` produces the exact strings of the Go code. -/
inductive VName
  | serie (n : Nat)
  | orig0 (n : Nat)
  | orig1 (n : Nat)
  | sumOrig (n : Nat)
  | sumTmp (n i : Nat)
  | sumTmpOri (n i : Nat)
deriving DecidableEq

/-- The strings the Go code uses for each identifier:
"serie%d", "serie%d-orig0", "serie%d-orig1", "serie%d-orig",
"serie%d-tmp%d", "serie%d-tmp%d-ori". -/
def VName.render : VName → String
  | VName.serie n => "serie" ++ Nat.repr n
  | VName.orig0 n => "serie" ++ Nat.repr n ++ "-orig0"
  | VName.orig1 n => "serie" ++ Nat.repr n ++ "-orig1"
  | VName.sumOrig n => "serie" ++ Nat.repr n ++ "-orig"
  | VName.sumTmp n i => "serie" ++ Nat.repr n ++ "-tmp" ++ Nat.repr i
  | VName.sumTmpOri n i => "serie" ++ Nat.repr n ++ "-tmp" ++ Nat.repr i ++ "-ori"

/- ===== reverse-Polish expressions and the engine programs ===== -/

/-- One token of a reverse-Polish CDEF expression.  The Go code builds
these expressions as comma-separated strings; the model keeps them as
token lists (`RpnTok.render` gives the textual element). -/
inductive RpnTok
  | ref (v : VName)
  | num (q : ℚ)
  | un
  | if_
  | plus
  | div
  | mul
deriving DecidableEq

/-- Textual form of one stack element, as the Go code writes it:
identifiers by name, integer literals via strconv.Itoa, other literals
via %f. -/
def RpnTok.render : RpnTok → String
  | RpnTok.ref v => v.render
  | RpnTok.num q => if q.den = 1 then q.num.repr else goFmtFixed 6 q
  | RpnTok.un => "UN"
  | RpnTok.if_ => "IF"
  | RpnTok.plus => "+"
  | RpnTok.div => "/"
  | RpnTok.mul => "*"

/-- `strings.Join(stack, ",")` (rrd.go lines 296 and 309). -/
def renderStack (ts : List RpnTok) : String :=
  String.intercalate "," (ts.map RpnTok.render)

/-- One operation of an export program (rrd.Exporter). -/
inductive XOp
  | def_ (v : VName) (file ds cf : String)
  | cdef (v : VName) (rpn : List RpnTok)
  | xportDef (v : VName) (legend : String)
deriving DecidableEq

/-- One operation of a graph-info program (rrd.Grapher), kept textual as
in the Go API. -/
inductive GOp
  | def_ (vname file ds cf : String)
  | cdef (vname expr : String)
  | vdef (vname expr : String)
  | print (vname format : String)
deriving DecidableEq

/- ===== rrdSetGraph (rrd.go lines 376-403) ===== -/

/-- The statistics request block rrdSetGraph registers for one identifier:
min/avg/max/last VDEF+PRINT pairs, then per percentile a zero-substituting
CDEF, a PERCENT VDEF and a PRINT whose statistic key is
`<itemName>,<p>th` with %.2f for non-integral p and %.0f otherwise. -/
def rrdSetGraphOps (serieName itemName : String) (percentiles : List ℚ) : List GOp :=
  [ GOp.vdef (serieName ++ "-min") (serieName ++ ",MINIMUM"),
    GOp.print (serieName ++ "-min") (itemName ++ ",min,%lf"),
    GOp.vdef (serieName ++ "-avg") (serieName ++ ",AVERAGE"),
    GOp.print (serieName ++ "-avg") (itemName ++ ",avg,%lf"),
    GOp.vdef (serieName ++ "-max") (serieName ++ ",MAXIMUM"),
    GOp.print (serieName ++ "-max") (itemName ++ ",max,%lf"),
    GOp.vdef (serieName ++ "-last") (serieName ++ ",LAST"),
    GOp.print (serieName ++ "-last") (itemName ++ ",last,%lf") ]
  ++ (percentiles.enum.map (fun ip =>
       [ GOp.cdef (serieName ++ "-cdef" ++ Nat.repr ip.1)
           (serieName ++ ",UN,0," ++ serieName ++ ",IF"),
         GOp.vdef (serieName ++ "-vdef" ++ Nat.repr ip.1)
           (serieName ++ "-cdef" ++ Nat.repr ip.1 ++ "," ++ goFmtFixed 6 ip.2 ++ ",PERCENT"),
         GOp.print (serieName ++ "-vdef" ++ Nat.repr ip.1)
           (itemName ++ ","
            ++ (if ip.2 - (truncQ ip.2 : ℚ) ≠ 0 then goFmtFixed 2 ip.2 else goFmtFixed 0 ip.2)
            ++ "th,%lf") ])).flatten

/-- The PRINT format strings of a graph program, in order. -/
def printFormats (ops : List GOp) : List String :=
  ops.filterMap (fun op => match op with
    | GOp.print _ f => some f
    | _ => none)

/- ===== the query compiler rrdGetData (rrd.go lines 160-357) ===== -/

/-- The aggregation-collapsing rule (rrd.go lines 167-169): a non-None
query with exactly one configured series has its Type overwritten to None
through the caller's pointer. -/
def rrdCollapse (q : GroupQuery) : GroupQuery :=
  if q.Typ ≠ OperGroupTypeNone ∧ q.Series.length = 1 then
    { q with Typ := OperGroupTypeNone }
  else q

/-- Graph operations of the None-mode loop (rrd.go lines 194-252):
per resolvable series a DEF, a per-series-scale CDEF, a group-scale CDEF
and the statistics block; `count` numbers only resolvable series. -/
def noneLoopG (cat : Catalog) (qScale : ℚ) (ps : List ℚ) :
    List Serie → Nat → List GOp
  | [], _ => []
  | s :: rest, count =>
    match s.Metric with
    | none => noneLoopG cat qScale ps rest count
    | some mr =>
      let m := catGet cat mr.SourceName mr.Name
      ([ GOp.def_ (VName.orig0 count).render m.FilePath m.Dataset "AVERAGE",
         (if s.Scale ≠ 0 then
            GOp.cdef (VName.orig1 count).render
              ((VName.orig0 count).render ++ "," ++ goFmtFixed 6 s.Scale ++ ",*")
          else GOp.cdef (VName.orig1 count).render (VName.orig0 count).render),
         (if qScale ≠ 0 then
            GOp.cdef (VName.serie count).render
              ((VName.orig1 count).render ++ "," ++ goFmtFixed 6 qScale ++ ",*")
          else GOp.cdef (VName.serie count).render (VName.orig1 count).render) ]
       ++ rrdSetGraphOps (VName.serie count).render s.Name ps)
      ++ noneLoopG cat qScale ps rest (count + 1)

/-- Export operations of the None-mode loop (rrd.go lines 227-248). -/
def noneLoopX (cat : Catalog) (qScale : ℚ) :
    List Serie → Nat → List XOp
  | [], _ => []
  | s :: rest, count =>
    match s.Metric with
    | none => noneLoopX cat qScale rest count
    | some mr =>
      let m := catGet cat mr.SourceName mr.Name
      [ XOp.def_ (VName.orig0 count) m.FilePath m.Dataset "AVERAGE",
        XOp.cdef (VName.orig1 count)
          (if s.Scale ≠ 0 then
             [RpnTok.ref (VName.orig0 count), RpnTok.num s.Scale, RpnTok.mul]
           else [RpnTok.ref (VName.orig0 count)]),
        XOp.cdef (VName.serie count)
          (if qScale ≠ 0 then
             [RpnTok.ref (VName.orig1 count), RpnTok.num qScale, RpnTok.mul]
           else [RpnTok.ref (VName.orig1 count)]),
        XOp.xportDef (VName.serie count) (VName.serie count).render ]
      ++ noneLoopX cat qScale rest (count + 1)

/-- Series label map entries of the None-mode loop
(`series[serieTemp] = serieName`, rrd.go line 251). -/
def noneLoopS : List Serie → Nat → List (String × String)
  | [], _ => []
  | s :: rest, count =>
    match s.Metric with
    | none => noneLoopS rest count
    | some _ => ((VName.serie count).render, s.Name) :: noneLoopS rest (count + 1)

/-- Graph operations of the Sum/Avg loop (rrd.go lines 258-290): per
resolvable series a DEF of `serie0-tmp<index>-ori` and a CDEF that
substitutes unknown values with zero; `index` counts ALL series. -/
def sumLoopG (cat : Catalog) : List Serie → Nat → List GOp
  | [], _ => []
  | s :: rest, idx =>
    match s.Metric with
    | none => sumLoopG cat rest (idx + 1)
    | some mr =>
      let m := catGet cat mr.SourceName mr.Name
      [ GOp.def_ (VName.sumTmpOri 0 idx).render m.FilePath m.Dataset "AVERAGE",
        GOp.cdef (VName.sumTmp 0 idx).render
          ((VName.sumTmpOri 0 idx).render ++ ",UN,0," ++ (VName.sumTmpOri 0 idx).render ++ ",IF") ]
      ++ sumLoopG cat rest (idx + 1)

/-- Export operations of the Sum/Avg loop (rrd.go lines 274-283). -/
def sumLoopX (cat : Catalog) : List Serie → Nat → List XOp
  | [], _ => []
  | s :: rest, idx =>
    match s.Metric with
    | none => sumLoopX cat rest (idx + 1)
    | some mr =>
      let m := catGet cat mr.SourceName mr.Name
      [ XOp.def_ (VName.sumTmpOri 0 idx) m.FilePath m.Dataset "AVERAGE",
        XOp.cdef (VName.sumTmp 0 idx)
          [ RpnTok.ref (VName.sumTmpOri 0 idx), RpnTok.un, RpnTok.num 0,
            RpnTok.ref (VName.sumTmpOri 0 idx), RpnTok.if_ ] ]
      ++ sumLoopX cat rest (idx + 1)

/-- Reverse-Polish accumulation of the Sum/Avg loop (rrd.go lines
285-289): the first resolvable operand alone, each subsequent operand
followed by a plus. -/
def sumLoopStack : List Serie → Nat → List RpnTok → List RpnTok
  | [], _, stack => stack
  | s :: rest, idx, stack =>
    match s.Metric with
    | none => sumLoopStack rest (idx + 1) stack
    | some _ =>
      sumLoopStack rest (idx + 1)
        (if stack.isEmpty then stack ++ [RpnTok.ref (VName.sumTmp 0 idx)]
         else stack ++ [RpnTok.ref (VName.sumTmp 0 idx), RpnTok.plus])

/-- The (index, series) pairs of the resolvable series, with the index the
Go range loop assigns (counting all series). -/
def resolvPairs : List Serie → Nat → List (Nat × Serie)
  | [], _ => []
  | s :: rest, idx =>
    match s.Metric with
    | none => resolvPairs rest (idx + 1)
    | some _ => (idx, s) :: resolvPairs rest (idx + 1)

/-- The stack a list of operands produces under the accumulation rule of
rrd.go lines 285-289: first operand alone, each later one followed by +. -/
def stackOf : List VName → List RpnTok
  | [] => []
  | v :: vs => RpnTok.ref v :: vs.flatMap (fun w => [RpnTok.ref w, RpnTok.plus])

/-- The compiled output of one rrdGetData run: the graph-info program, the
export program and the temporary-identifier-to-label map. -/
structure RrdOut where
  graph : List GOp
  xport : List XOp
  series : List (String × String)
deriving DecidableEq

/-- The None-mode branch (rrd.go lines 193-252). -/
def noneBranch (cat : Catalog) (q : GroupQuery) (ps : List ℚ) (infoOnly : Bool) : RrdOut :=
  { graph := noneLoopG cat q.Scale ps q.Series 0,
    xport := if infoOnly then [] else noneLoopX cat q.Scale q.Series 0,
    series := noneLoopS q.Series 0 }

/-- The Sum/Avg branch (rrd.go lines 254-321): per-series zero-substituted
temporaries, reverse-Polish accumulation, for Avg a final division by the
literal `len(query.Series)` (line 293), the optional group scale, one
statistics block labeled with the group's name, and one series map entry. -/
def sumBranch (cat : Catalog) (q : GroupQuery) (ps : List ℚ) (infoOnly : Bool) : RrdOut :=
  let stack0 := sumLoopStack q.Series 0 []
  let stack :=
    if q.Typ = OperGroupTypeAvg then
      stack0 ++ [RpnTok.num (q.Series.length : ℚ), RpnTok.div]
    else stack0
  let sn := VName.serie 0
  let so := VName.sumOrig 0
  { graph :=
      sumLoopG cat q.Series 0
      ++ [GOp.cdef so.render (renderStack stack)]
      ++ [(if q.Scale ≠ 0 then
             GOp.cdef sn.render (so.render ++ "," ++ goFmtFixed 6 q.Scale ++ ",*")
           else GOp.cdef sn.render so.render)]
      ++ rrdSetGraphOps sn.render q.Name ps,
    xport :=
      if infoOnly then []
      else
        sumLoopX cat q.Series 0
        ++ [ XOp.cdef so stack,
             XOp.cdef sn
               (if q.Scale ≠ 0 then [RpnTok.ref so, RpnTok.num q.Scale, RpnTok.mul]
                else [RpnTok.ref so]),
             XOp.xportDef sn sn.render ],
    series := [(sn.render, q.Name)] }

/-- Compilation stage of rrdGetData (rrd.go lines 160-325).  The first
component is the query value as the caller sees it after the call (the Go
code mutates `query.Type` through the pointer at line 168); the second is
the compiled programs or the error. -/
def rrdGetDataModel (cat : Catalog) (query : GroupQuery) (ps : List ℚ)
    (infoOnly : Bool) : GroupQuery × Except String RrdOut :=
  if query.Series.length = 0 then
    (query, Except.error "group has no series")
  else
    let q := rrdCollapse query
    if q.Typ = OperGroupTypeNone then
      (q, Except.ok (noneBranch cat q ps infoOnly))
    else if q.Typ = OperGroupTypeAvg ∨ q.Typ = OperGroupTypeSum then
      (q, Except.ok (sumBranch cat q ps infoOnly))
    else
      (q, Except.error "unknown operator type")

/- ===== engine evaluation of an export program at one row ===== -/

/-- Raw dataset samples at one row: file path → dataset name → value,
`none` for the engine's unknown marker. -/
def RowData := String → String → Option ℚ

/-- Environment of defined identifiers at one row; `none` is an unknown
value. -/
def Env := VName → Option ℚ

/-- Pointwise environment update. -/
def envUpdate (env : Env) (v : VName) (x : Option ℚ) : Env :=
  fun w => if w = v then x else env w

/-- Unknown-propagating addition (rrdtool +). -/
def liftAdd : Option ℚ → Option ℚ → Option ℚ
  | some a, some b => some (a + b)
  | _, _ => none

/-- Unknown-propagating multiplication (rrdtool *). -/
def liftMul : Option ℚ → Option ℚ → Option ℚ
  | some a, some b => some (a * b)
  | _, _ => none

/-- Unknown-propagating division (rrdtool /); division by zero is
unknown. -/
def liftDiv : Option ℚ → Option ℚ → Option ℚ
  | some a, some b => if b = 0 then none else some (a / b)
  | _, _ => none

/-- One step of the reverse-Polish stack machine.  The head of the list is
the top of the stack; `none` is a machine fault (stack underflow), which
compiled programs never trigger.  UN pops one value and pushes 1 for
unknown, 0 otherwise; `a,b,c,IF` selects b when a is non-zero, c
otherwise. -/
def rpnStep (env : Env) (st : List (Option ℚ)) : RpnTok → Option (List (Option ℚ))
  | RpnTok.ref v => some (env v :: st)
  | RpnTok.num q => some (some q :: st)
  | RpnTok.un =>
    match st with
    | a :: rest => some (some (if a = none then (1 : ℚ) else 0) :: rest)
    | [] => none
  | RpnTok.if_ =>
    match st with
    | c :: b :: a :: rest =>
      some ((match a with
             | none => none
             | some av => if av ≠ 0 then b else c) :: rest)
    | _ => none
  | RpnTok.plus =>
    match st with
    | b :: a :: rest => some (liftAdd a b :: rest)
    | _ => none
  | RpnTok.div =>
    match st with
    | b :: a :: rest => some (liftDiv a b :: rest)
    | _ => none
  | RpnTok.mul =>
    match st with
    | b :: a :: rest => some (liftMul a b :: rest)
    | _ => none

/-- Run of the stack machine over a token list. -/
def rpnEval (env : Env) : List RpnTok → List (Option ℚ) → Option (List (Option ℚ))
  | [], st => some st
  | t :: ts, st =>
    match rpnStep env st t with
    | none => none
    | some st2 => rpnEval env ts st2

/-- Value of a CDEF expression: the single stack element the machine ends
with (machine faults collapse to unknown; compiled programs never fault). -/
def rpnRun (env : Env) (ts : List RpnTok) : Option ℚ :=
  match rpnEval env ts [] with
  | some [x] => x
  | _ => none

/-- Evaluation of an export program at one row: DEFs read the raw dataset
sample, CDEFs run their expression over the current environment. -/
def xevalEnv (rd : RowData) : List XOp → Env → Env
  | [], env => env
  | XOp.def_ v f d _ :: ops, env => xevalEnv rd ops (envUpdate env v (rd f d))
  | XOp.cdef v ts :: ops, env => xevalEnv rd ops (envUpdate env v (rpnRun env ts))
  | XOp.xportDef _ _ :: ops, env => xevalEnv rd ops env

/-- The value the compiled export program of a query produces at one row
for the exported identifier serie0 (the merged sample of the group in
Sum/Avg mode, the first resolvable series in None mode). -/
def rrdRowValue (cat : Catalog) (q : GroupQuery) (rd : RowData) : Option ℚ :=
  match (rrdGetDataModel cat q [] false).2 with
  | Except.ok out => xevalEnv rd out.xport (fun _ => none) (VName.serie 0)
  | Except.error _ => none

/-- The raw dataset sample a series reads at one row. -/
def serieData (cat : Catalog) (rd : RowData) (s : Serie) : Option ℚ :=
  match s.Metric with
  | some mr => rd (catGet cat mr.SourceName mr.Name).FilePath (catGet cat mr.SourceName mr.Name).Dataset
  | none => none

/-- The zero-substituted value of a series at one row (the value of its
`serie0-tmp<i>` temporary in Sum/Avg mode). -/
def substVal (cat : Catalog) (rd : RowData) (s : Serie) : ℚ :=
  (serieData cat rd s).getD 0

/-- The first CDEF bound to serie0-orig in an export program (the
accumulated Sum/Avg expression). -/
def sumOrigStack (r : Except String RrdOut) : Option (List RpnTok) :=
  match r with
  | Except.ok out =>
    (out.xport.filterMap (fun op => match op with
      | XOp.cdef v ts => if v = VName.sumOrig 0 then some ts else none
      | _ => none)).head?
  | Except.error _ => none

/-- The series label map of a successful compilation. -/
def outSeries (r : Except String RrdOut) : Option (List (String × String)) :=
  match r with
  | Except.ok out => some out.series
  | Except.error _ => none

/- ===== buffer lifecycle of the execution stage (rrd.go lines 327-356) ===== -/

/-- Which engine result buffers a run of the execution stage allocates and
frees. -/
structure BufState where
  allocated : List Nat
  freed : List Nat
deriving DecidableEq

/-- `data.FreeValues()` on an XportResult that holds the given buffer
(`none` for the zero-valued struct, which holds no buffer). -/
def freeValues (buf : Option Nat) (st : BufState) : BufState :=
  match buf with
  | none => st
  | some h => { st with freed := st.freed ++ [h] }

/-- Buffer lifecycle of rrd.go lines 327-356.  Line 328 declares
`data := rrd.XportResult{}` (zero value, no buffer).  Line 331,
`data, err := xport.Xport(...)`, uses `:=` inside the if-block and so
declares a NEW `data` that SHADOWS the outer one; a successful export
allocates its buffer (modelled by the handle in `xportResult`) into that
inner variable only.  Line 354 `data.FreeValues()` runs on the OUTER,
still zero-valued `data`, and both error returns (lines 333 and 349)
happen before it.  The function returns the final buffer state and
whether it returned successfully. -/
def rrdGetDataBuffers (infoOnly : Bool) (xportResult : Except String Nat)
    (graphOk : Bool) : BufState × Bool :=
  let outer : Option Nat := none
  if infoOnly then
    if graphOk then (freeValues outer { allocated := [], freed := [] }, true)
    else ({ allocated := [], freed := [] }, false)
  else
    match xportResult with
    | Except.error _ => ({ allocated := [], freed := [] }, false)
    | Except.ok h =>
      let st : BufState := { allocated := [h], freed := [] }
      if graphOk then (freeValues outer st, true)
      else (st, false)

/- ===== concrete instances used by counterexamples and witnesses ===== -/

/-- A catalog with three resolvable metrics under source "src". -/
def catCex : Catalog := fun s n =>
  if s = "src" ∧ n = "m1" then some { Dataset := "ds1", FilePath := "f1" }
  else if s = "src" ∧ n = "m2" then some { Dataset := "ds2", FilePath := "f2" }
  else if s = "src" ∧ n = "m3" then some { Dataset := "ds3", FilePath := "f3" }
  else none

/-- Row data for one sample row: m1 reads 6, m2 reads unknown, m3 reads 4. -/
def rdCex : RowData := fun f d =>
  if f = "f1" ∧ d = "ds1" then some 6
  else if f = "f2" ∧ d = "ds2" then none
  else if f = "f3" ∧ d = "ds3" then some 4
  else none

/-- A resolvable series named "a" over m1. -/
def serA : Serie := { Name := "a", Metric := some { SourceName := "src", Name := "m1" }, Scale := 0 }

/-- A resolvable series named "b" over m2 (the unknown sample). -/
def serB : Serie := { Name := "b", Metric := some { SourceName := "src", Name := "m2" }, Scale := 0 }

/-- A resolvable series named "c" over m3. -/
def serC : Serie := { Name := "c", Metric := some { SourceName := "src", Name := "m3" }, Scale := 0 }

/-- A resolvable series named "one" over m1. -/
def serOne : Serie := { Name := "one", Metric := some { SourceName := "src", Name := "m1" }, Scale := 0 }

/-- An unresolvable series (nil metric reference) named "two". -/
def serU : Serie := { Name := "two", Metric := none, Scale := 0 }

/-- Avg query with two configured series of which one is resolvable. -/
def qC1 : GroupQuery :=
  { Name := "grp", Typ := OperGroupTypeAvg, Series := [serOne, serU], Scale := 0 }

/-- Sum query with two configured series of which one is resolvable. -/
def qC2 : GroupQuery :=
  { Name := "grp", Typ := OperGroupTypeSum, Series := [serOne, serU], Scale := 0 }

/-- Sum query with exactly one configured (resolvable) series. -/
def qC3 : GroupQuery :=
  { Name := "grp", Typ := OperGroupTypeSum, Series := [serOne], Scale := 0 }

/-- Sum query over three resolvable series, the middle one with an unknown
sample at the examined row. -/
def qC7 : GroupQuery :=
  { Name := "grp", Typ := OperGroupTypeSum, Series := [serA, serB, serC], Scale := 0 }

/-- A configuration supplying strings for path and pattern and omitting
daemon. -/
def cfgNoDaemon : List (String × ConfigValue) :=
  [("path", ConfigValue.str "/var/lib/rrd"), ("pattern", ConfigValue.str "host-metric")]

/-- Catalog entry discovered by a first Refresh run. -/
def dOld : rrdMetric := { Dataset := "ds", FilePath := "f1" }

/-- Catalog entry discovered by a second Refresh run. -/
def dNew : rrdMetric := { Dataset := "ds", FilePath := "f2" }

/-- The metrics map after a first Refresh run that discovered only
(s1, m1/ds). -/
def catRun1 : Catalog := refreshCatalog emptyCatalog [("s1", "m1/ds", dOld)]

/-- The metrics map after a second Refresh run that discovered only
(s2, m2/ds). -/
def catRun2 : Catalog := refreshCatalog catRun1 [("s2", "m2/ds", dNew)]

/-- A parse oracle on which every value fails to parse. -/
def pfFail : String → Option ℚ := fun _ => none

/-- An empty result map. -/
def dmEmpty : DataMap := fun _ => none

/- ===================================================================
   Theorems
   =================================================================== -/

/- ===== splitting lemmas (rrdParseInfo precondition, claim C10) ===== -/

theorem breakComma_eq_none (cs : List Char) (h : breakComma cs = none) :
    (cs.filter (fun c => c = ',')).length = 0 := by
  induction cs with
  | nil => simp
  | cons c cs ih =>
    rw [breakComma] at h
    by_cases hc : c = ','
    · rw [if_pos hc] at h
      exact absurd h (by simp)
    · rw [if_neg hc] at h
      cases hbc : breakComma cs with
      | none => simpa [List.filter_cons, hc] using ih hbc
      | some p =>
        obtain ⟨a, r⟩ := p
        rw [hbc] at h
        exact absurd h (by simp)

theorem breakComma_eq_some (cs a r) (h : breakComma cs = some (a, r)) :
    (cs.filter (fun c => c = ',')).length = (r.filter (fun c => c = ',')).length + 1 := by
  induction cs generalizing a with
  | nil => rw [breakComma] at h; exact absurd h (by simp)
  | cons c cs ih =>
    rw [breakComma] at h
    by_cases hc : c = ','
    · rw [if_pos hc] at h
      obtain ⟨rfl, rfl⟩ : [] = a ∧ cs = r := by simpa using h
      simp [List.filter_cons, hc]
    · rw [if_neg hc] at h
      cases hbc : breakComma cs with
      | none => rw [hbc] at h; exact absurd h (by simp)
      | some p =>
        obtain ⟨a2, r2⟩ := p
        rw [hbc] at h
        obtain ⟨rfl, rfl⟩ : c :: a2 = a ∧ r2 = r := by simpa using h
        simpa [List.filter_cons, hc] using ih a2 hbc

theorem goSplitChars_length (k : Nat) : ∀ cs : List Char,
    (goSplitChars k cs).length = min k ((cs.filter (fun c => c = ',')).length) + 1 := by
  induction k with
  | zero => intro cs; simp [goSplitChars]
  | succ k ih =>
    intro cs
    rw [goSplitChars]
    cases hbc : breakComma cs with
    | none => simp [breakComma_eq_none cs hbc]
    | some p =>
      obtain ⟨a, r⟩ := p
      simp only [List.length_cons, ih r, breakComma_eq_some cs a r hbc,
        Nat.succ_min_succ]

theorem goSplitN3_length_of_ge (s : String) (h : 2 ≤ countCommas s) :
    (goSplitN3 s).length = 3 := by
  rw [countCommas] at h
  rw [goSplitN3, List.length_map, goSplitChars_length, Nat.min_eq_left h]

theorem goSplitN3_oob_of_lt (s : String) (h : countCommas s < 2) :
    (goSplitN3 s).get? 2 = none := by
  rw [countCommas] at h
  apply List.get?_eq_none.mpr
  rw [goSplitN3, List.length_map, goSplitChars_length]
  omega

/-- Claim C10: the result merger accesses the third SplitN chunk
unconditionally, so it is total only on lines with at least two commas: a
line with at least two commas splits into exactly three chunks, a line
with fewer splits into fewer chunks so the index-2 access is out of
bounds, and on the comma-free line "abc" the per-line merger step faults
(Go: index-out-of-range panic). -/
theorem C10_split_precondition :
    (∀ s : String, 2 ≤ countCommas s → (goSplitN3 s).length = 3) ∧
    (∀ s : String, countCommas s < 2 → (goSplitN3 s).get? 2 = none) ∧
    (goSplitN3 "abc").get? 2 = none ∧
    (∀ pf data, rrdParseInfoLine pf data "abc" = none) := by
  refine ⟨goSplitN3_length_of_ge, goSplitN3_oob_of_lt, by decide, ?_⟩
  intro pf data
  rfl

/-- Witness for C10 at concrete inputs. -/
theorem C10_witness :
    (goSplitN3 "a,b,c").length = 3 ∧ (goSplitN3 "ab").get? 2 = none :=
  ⟨C10_split_precondition.1 "a,b,c" (by decide),
   C10_split_precondition.2.1 "ab" (by decide)⟩

/- ===== claim C9: malformed statistic lines ===== -/

/-- Claim C9: a raw statistic line of shape label,key,value whose value
part does not parse as a float does not fail the merger: the merger step
succeeds, stores the not-a-number sentinel under that label and statistic
key, leaves every sample sequence unchanged (also the one of that label),
leaves every other statistic key of that label unchanged, and leaves every
other label's result untouched. -/
theorem C9_malformed_stat_nan (pf : String → Option ℚ) (data : DataMap)
    (label key v : String)
    (hsplit : goSplitN3 (label ++ "," ++ key ++ "," ++ v) = [label, key, v])
    (hbad : pf v = none) :
    ∃ d, rrdParseInfoLine pf data (label ++ "," ++ key ++ "," ++ v) = some d ∧
      (∃ pr, d label = some pr ∧
        pr.Info key = some PlotValue.nan ∧
        pr.Plots = (match data label with | some p0 => p0.Plots | none => []) ∧
        (∀ k, k ≠ key → pr.Info k = (match data label with | some p0 => p0.Info k | none => none))) ∧
      (∀ l, l ≠ label → d l = data l) := by
  refine ⟨updateInfo data label key PlotValue.nan, ?_, ?_, ?_⟩
  · rw [rrdParseInfoLine]
    simp only [hsplit, List.get?_cons_succ, List.get?_cons_zero, hbad]
  · refine ⟨{ Plots := (match data label with | some p0 => p0.Plots | none => []),
              Info := fun k => if k = key then some PlotValue.nan else
                (match data label with | some p0 => p0.Info k | none => none) }, ?_, ?_, ?_, ?_⟩
    · show updateInfo data label key PlotValue.nan label = _
      rw [updateInfo]
      cases data label <;> simp
    · simp
    · simp
    · intro k hk
      simp [hk]
  · intro l hl
    rw [updateInfo]
    simp [hl]

/-- Witness for C9: the malformed line "cpu,avg,oops" under a parse oracle
that rejects "oops". -/
theorem C9_witness :
    goSplitN3 ("cpu" ++ "," ++ "avg" ++ "," ++ "oops") = ["cpu", "avg", "oops"] ∧
    pfFail "oops" = none ∧
    (∃ d, rrdParseInfoLine pfFail dmEmpty ("cpu" ++ "," ++ "avg" ++ "," ++ "oops") = some d ∧
      (∃ pr, d "cpu" = some pr ∧
        pr.Info "avg" = some PlotValue.nan ∧
        pr.Plots = (match dmEmpty "cpu" with | some p0 => p0.Plots | none => []) ∧
        (∀ k, k ≠ "avg" → pr.Info k = (match dmEmpty "cpu" with | some p0 => p0.Info k | none => none))) ∧
      (∀ l, l ≠ "cpu" → d l = dmEmpty l)) :=
  ⟨by decide, rfl,
   C9_malformed_stat_nan pfFail dmEmpty "cpu" "avg" "oops" (by decide) rfl⟩

/- ===== claim C4: Refresh merges instead of replacing ===== -/

/-- Counterexample to claim C4: after a first Refresh run that discovered
only (s1, m1/ds) and a second run that discovered only (s2, m2/ds), the
catalog still contains the first run's entry next to the second run's
entry — the second run did not replace the catalog wholesale. -/
theorem C4_counterexample :
    catRun2 "s1" "m1/ds" = some dOld ∧
    catRun2 "s2" "m2/ds" = some dNew ∧
    catRun2 "s1" "m1/ds" ≠ none := by
  refine ⟨by decide, by decide, by decide⟩

/-- Claim C4 amended: a Refresh run inserts its discoveries into the
existing metrics map without clearing it, so every entry of the previous
catalog whose (source, metricFullName) key the new run does not rediscover
is still present, unchanged, after the run. -/
theorem C4_amended_refresh_merges (m : Catalog)
    (found : List (String × String × rrdMetric)) (src name : String)
    (h : ∀ e ∈ found, ¬(e.1 = src ∧ e.2.1 = name)) :
    refreshCatalog m found src name = m src name := by
  induction found generalizing m with
  | nil => rfl
  | cons e rest ih =>
    have hstep : refreshCatalog m (e :: rest) =
        refreshCatalog (catInsert m e.1 e.2.1 e.2.2) rest := by
      rw [refreshCatalog, refreshCatalog, List.foldl_cons]
    rw [hstep, ih (catInsert m e.1 e.2.1 e.2.2) (fun x hx => h x (List.mem_cons_of_mem _ hx))]
    have hne := h e (List.mem_cons_self _ _)
    rw [catInsert, if_neg (fun hc => hne ⟨hc.1.symm, hc.2.symm⟩)]

/-- Witness for C4 amended: the second run's discoveries miss the key
(s1, m1/ds), so that entry survives the second run. -/
theorem C4_witness :
    (∀ e ∈ [("s2", "m2/ds", dNew)], ¬(e.1 = "s1" ∧ e.2.1 = "m1/ds")) ∧
    refreshCatalog catRun1 [("s2", "m2/ds", dNew)] "s1" "m1/ds" = catRun1 "s1" "m1/ds" :=
  ⟨by decide, C4_amended_refresh_merges catRun1 _ "s1" "m1/ds" (by decide)⟩

/- ===== claim C5: the daemon setting ===== -/

/-- Counterexample to claim C5: a configuration that supplies strings for
path and pattern and omits daemon is rejected by the factory with the
daemon type error, instead of yielding a connector instance. -/
theorem C5_counterexample :
    asGoString (cfgLookup cfgNoDaemon "path") = some "/var/lib/rrd" ∧
    asGoString (cfgLookup cfgNoDaemon "pattern") = some "host-metric" ∧
    cfgLookup cfgNoDaemon "daemon" = none ∧
    rrdFactory cfgNoDaemon = Except.error "connector setting daemon should be a string" := by
  refine ⟨by decide, by decide, by decide, rfl⟩

theorem asGoString_some (o : Option ConfigValue) (s : String)
    (h : asGoString o = some s) : o = some (ConfigValue.str s) := by
  match o with
  | none => exact absurd h (by simp [asGoString])
  | some (ConfigValue.str t) =>
    rw [asGoString] at h
    rw [Option.some_inj.mp h]
  | some ConfigValue.other => exact absurd h (by simp [asGoString])

/-- Claim C5 amended: the factory requires daemon as well: on every
configuration supplying strings for path and pattern but containing no
daemon key, the type assertion on the absent daemon entry fails and the
factory returns the daemon configuration error instead of a connector. -/
theorem C5_amended_daemon_required (config : List (String × ConfigValue)) (p pat : String)
    (hp : asGoString (cfgLookup config "path") = some p)
    (hq : asGoString (cfgLookup config "pattern") = some pat)
    (hd : cfgLookup config "daemon" = none) :
    rrdFactory config = Except.error "connector setting daemon should be a string" := by
  have hp2 := asGoString_some _ _ hp
  have hq2 := asGoString_some _ _ hq
  rw [rrdFactory, hp2, hq2, hd]
  rfl

/-- Witness for C5 amended at the concrete daemon-free configuration. -/
theorem C5_witness :
    asGoString (cfgLookup cfgNoDaemon "path") = some "/var/lib/rrd" ∧
    asGoString (cfgLookup cfgNoDaemon "pattern") = some "host-metric" ∧
    cfgLookup cfgNoDaemon "daemon" = none ∧
    rrdFactory cfgNoDaemon = Except.error "connector setting daemon should be a string" :=
  ⟨by decide, by decide, by decide,
   C5_amended_daemon_required cfgNoDaemon "/var/lib/rrd" "host-metric"
     (by decide) (by decide) (by decide)⟩

/- ===== claim C6: result buffers are never released ===== -/

/-- Claim C6 is false of the code (and the code contradicts its own
cleanup intent): on the successful path with an export, the run allocates
the export buffer but the final FreeValues call — which runs on the outer,
zero-valued XportResult that line 331 shadowed — frees nothing, and both
failure paths return before any FreeValues call, so nothing is freed on
any path. -/
theorem C6_buffers_not_released :
    (rrdGetDataBuffers false (Except.ok 7) true).2 = true ∧
    (rrdGetDataBuffers false (Except.ok 7) true).1.allocated = [7] ∧
    (rrdGetDataBuffers false (Except.ok 7) true).1.freed = [] ∧
    (rrdGetDataBuffers false (Except.ok 7) false).1.freed = [] ∧
    (rrdGetDataBuffers false (Except.error "engine failure") false).1.freed = [] := by
  refine ⟨rfl, rfl, rfl, rfl, rfl⟩

/- ===== claim C8: percentile statistic keys ===== -/

theorem roundHalfEven_intCast (n : Int) : roundHalfEven ((n : Int) : ℚ) = n := by
  rw [roundHalfEven]
  norm_num

theorem goFmtFixed_fifty : goFmtFixed 0 (50 : ℚ) = "50" := by
  have h : roundHalfEven ((50 : ℚ) * (10 : ℚ) ^ (0 : Nat)) = 50 := by
    have h2 : ((50 : ℚ) * (10 : ℚ) ^ (0 : Nat)) = ((50 : Int) : ℚ) := by norm_num
    rw [h2, roundHalfEven_intCast]
  simp only [goFmtFixed, h]
  rfl

theorem goFmtFixed_ninety_nine_nine : goFmtFixed 2 (999 / 10 : ℚ) = "99.90" := by
  have h : roundHalfEven ((999 / 10 : ℚ) * (10 : ℚ) ^ (2 : Nat)) = 9990 := by
    have h2 : ((999 / 10 : ℚ) * (10 : ℚ) ^ (2 : Nat)) = ((9990 : Int) : ℚ) := by norm_num
    rw [h2, roundHalfEven_intCast]
  simp only [goFmtFixed, h]
  rfl

theorem truncQ_fifty : truncQ (50 : ℚ) = 50 := by
  rw [truncQ]
  norm_num

theorem truncQ_ninety_nine_nine : truncQ (999 / 10 : ℚ) = 99 := by
  rw [truncQ]
  norm_num

/-- Claim C8: on percentiles [50, 99.9] for a series labeled "cpu", the
statistics block binds exactly the keys cpu,50th and cpu,99.90th for the
percentiles (integral rendering %.0f for the integral percentile,
fractional rendering %.2f for the non-integral one), next to the four
fixed min/avg/max/last keys. -/
theorem C8_percentile_keys :
    printFormats (rrdSetGraphOps "serie0" "cpu" [50, 999 / 10]) =
      ["cpu,min,%lf", "cpu,avg,%lf", "cpu,max,%lf", "cpu,last,%lf",
       "cpu,50th,%lf", "cpu,99.90th,%lf"] := by
  have hA : ¬((50 : ℚ) - ((truncQ (50 : ℚ) : Int) : ℚ) ≠ 0) := by
    rw [truncQ_fifty]
    norm_num
  have hB : ((999 / 10 : ℚ) - ((truncQ (999 / 10 : ℚ) : Int) : ℚ) ≠ 0) := by
    rw [truncQ_ninety_nine_nine]
    norm_num
  simp only [rrdSetGraphOps, List.enum, List.enumFrom, List.map, List.flatten,
    if_pos hB, if_neg hA, goFmtFixed_fifty, goFmtFixed_ninety_nine_nine]
  rfl


/- ===== claims C2 and C3: the collapsing rule and query mutation ===== -/

theorem rrdGetDataModel_eq (cat : Catalog) (q : GroupQuery) (ps : List ℚ) (io : Bool)
    (h0 : ¬(q.Series.length = 0)) :
    rrdGetDataModel cat q ps io =
      (if (rrdCollapse q).Typ = OperGroupTypeNone then
         (rrdCollapse q, Except.ok (noneBranch cat (rrdCollapse q) ps io))
       else if (rrdCollapse q).Typ = OperGroupTypeAvg ∨ (rrdCollapse q).Typ = OperGroupTypeSum then
         (rrdCollapse q, Except.ok (sumBranch cat (rrdCollapse q) ps io))
       else (rrdCollapse q, Except.error "unknown operator type")) := by
  simp only [rrdGetDataModel, if_neg h0]

theorem rrdCollapse_of_single (q : GroupQuery) (hT : q.Typ ≠ OperGroupTypeNone)
    (h1 : q.Series.length = 1) :
    rrdCollapse q = { q with Typ := OperGroupTypeNone } := by
  rw [rrdCollapse, if_pos ⟨hT, h1⟩]

theorem rrdCollapse_of_not (q : GroupQuery)
    (h : ¬(q.Typ ≠ OperGroupTypeNone ∧ q.Series.length = 1)) :
    rrdCollapse q = q := by
  rw [rrdCollapse, if_neg h]

theorem rrdGetDataModel_noneTyped (cat : Catalog) (q : GroupQuery) (ps : List ℚ) (io : Bool)
    (h0 : ¬(q.Series.length = 0)) (hT : q.Typ = OperGroupTypeNone) :
    rrdGetDataModel cat q ps io = (q, Except.ok (noneBranch cat q ps io)) := by
  have hc : rrdCollapse q = q := rrdCollapse_of_not q (fun hx => hx.1 hT)
  rw [rrdGetDataModel_eq cat q ps io h0, hc, if_pos hT]

theorem rrdGetDataModel_collapsed (cat : Catalog) (q : GroupQuery) (ps : List ℚ) (io : Bool)
    (hT : q.Typ ≠ OperGroupTypeNone) (h1 : q.Series.length = 1) :
    rrdGetDataModel cat q ps io =
      ({ q with Typ := OperGroupTypeNone },
       Except.ok (noneBranch cat { q with Typ := OperGroupTypeNone } ps io)) := by
  have h0 : ¬(q.Series.length = 0) := by omega
  rw [rrdGetDataModel_eq cat q ps io h0, rrdCollapse_of_single q hT h1]
  rfl

/-- Claim C2 amended: for a query with a non-None aggregation type and at
least one configured series, compilation collapses the aggregation type to
None exactly when the query has exactly ONE CONFIGURED series — the count
of resolvable series plays no role — and in the collapsing case the whole
run coincides with the run of the same query with aggregation type None
(per-series labeling and scaling rules). -/
theorem C2_amended_collapse_iff_single (cat : Catalog) (q : GroupQuery) (ps : List ℚ)
    (io : Bool) (hT : q.Typ ≠ OperGroupTypeNone) (hlen : 1 ≤ q.Series.length) :
    (((rrdGetDataModel cat q ps io).1.Typ = OperGroupTypeNone) ↔ q.Series.length = 1) ∧
    (q.Series.length = 1 →
      rrdGetDataModel cat q ps io =
        rrdGetDataModel cat { q with Typ := OperGroupTypeNone } ps io) := by
  have h0 : ¬(q.Series.length = 0) := by omega
  by_cases h1 : q.Series.length = 1
  · have hm1 := rrdGetDataModel_collapsed cat q ps io hT h1
    have hm2 := rrdGetDataModel_noneTyped cat { q with Typ := OperGroupTypeNone } ps io h0 rfl
    constructor
    · rw [hm1]
      simp [h1]
    · intro _
      rw [hm1, hm2]
  · have hc : rrdCollapse q = q := rrdCollapse_of_not q (fun hx => h1 hx.2)
    refine ⟨?_, fun h => absurd h h1⟩
    have hfst : (rrdGetDataModel cat q ps io).1 = q := by
      rw [rrdGetDataModel_eq cat q ps io h0, hc]
      by_cases hAS : q.Typ = OperGroupTypeAvg ∨ q.Typ = OperGroupTypeSum
      · rw [if_neg hT, if_pos hAS]
      · rw [if_neg hT, if_neg hAS]
    rw [hfst]
    simp [hT, h1]

/-- Witness for C2 amended: a Sum query with exactly one configured
series collapses and runs as a None query. -/
theorem C2_witness :
    qC3.Typ ≠ OperGroupTypeNone ∧ 1 ≤ qC3.Series.length ∧ qC3.Series.length = 1 ∧
    (((rrdGetDataModel catCex qC3 [] false).1.Typ = OperGroupTypeNone) ↔ qC3.Series.length = 1) ∧
    rrdGetDataModel catCex qC3 [] false =
      rrdGetDataModel catCex { qC3 with Typ := OperGroupTypeNone } [] false :=
  ⟨by decide, by decide, by decide,
   (C2_amended_collapse_iff_single catCex qC3 [] false (by decide) (by decide)).1,
   (C2_amended_collapse_iff_single catCex qC3 [] false (by decide) (by decide)).2 (by decide)⟩

/-- Counterexample to claim C2: a Sum query with two configured series of
which only one resolves (fewer than two resolvable series) does NOT
collapse: its type stays Sum and the output is labeled with the group's
name, while the same query compiled in None mode would be labeled with
the series' own name. -/
theorem C2_counterexample :
    resolvableCount qC2 < 2 ∧
    qC2.Typ ≠ OperGroupTypeNone ∧
    (rrdGetDataModel catCex qC2 [] false).1.Typ = OperGroupTypeSum ∧
    (rrdGetDataModel catCex qC2 [] false).1.Typ ≠ OperGroupTypeNone ∧
    outSeries (rrdGetDataModel catCex qC2 [] false).2 = some [("serie0", "grp")] ∧
    outSeries (rrdGetDataModel catCex { qC2 with Typ := OperGroupTypeNone } [] false).2 =
      some [("serie0", "one")] := by
  refine ⟨by decide, by decide, by decide, by decide, by decide, by decide⟩

/-- Counterexample to claim C3: running GetPlots on a Sum query with one
series overwrites the caller's query value — its aggregation type comes
back None. -/
theorem C3_counterexample :
    qC3.Typ = OperGroupTypeSum ∧
    (rrdGetDataModel catCex qC3 [] false).1.Typ = OperGroupTypeNone ∧
    (rrdGetDataModel catCex qC3 [] false).1 ≠ qC3 := by
  refine ⟨by decide, by decide, by decide⟩

/-- Claim C3 amended: a query run leaves the connector untouched (the
compiler only reads the catalog; no connector state appears in the model)
but NOT the caller's query value: the query comes back with its
aggregation type overwritten to None exactly when it had a non-None type
and exactly one configured series, and unchanged otherwise; re-running on
the returned query value reproduces the first run's result exactly. -/
theorem C3_amended_query_mutation (cat : Catalog) (q : GroupQuery) (ps : List ℚ)
    (io : Bool) :
    ((rrdGetDataModel cat q ps io).1 =
      (if q.Typ ≠ OperGroupTypeNone ∧ q.Series.length = 1
       then { q with Typ := OperGroupTypeNone } else q)) ∧
    rrdGetDataModel cat (rrdGetDataModel cat q ps io).1 ps io =
      rrdGetDataModel cat q ps io := by
  by_cases h0 : q.Series.length = 0
  · have h1 : ¬(q.Typ ≠ OperGroupTypeNone ∧ q.Series.length = 1) := by
      intro hx
      omega
    have hm : rrdGetDataModel cat q ps io = (q, Except.error "group has no series") := by
      simp only [rrdGetDataModel, if_pos h0]
    refine ⟨by rw [hm, if_neg h1], ?_⟩
    conv_lhs => rw [hm]
  · by_cases hcol : q.Typ ≠ OperGroupTypeNone ∧ q.Series.length = 1
    · have hm1 := rrdGetDataModel_collapsed cat q ps io hcol.1 hcol.2
      have hm2 := rrdGetDataModel_noneTyped cat { q with Typ := OperGroupTypeNone } ps io h0 rfl
      refine ⟨by rw [hm1, if_pos hcol], ?_⟩
      rw [hm1, hm2]
    · have hc : rrdCollapse q = q := rrdCollapse_of_not q hcol
      have hfst : (rrdGetDataModel cat q ps io).1 = q := by
        rw [rrdGetDataModel_eq cat q ps io h0, hc]
        by_cases hN : q.Typ = OperGroupTypeNone
        · rw [if_pos hN]
        · by_cases hAS : q.Typ = OperGroupTypeAvg ∨ q.Typ = OperGroupTypeSum
          · rw [if_neg hN, if_pos hAS]
          · rw [if_neg hN, if_neg hAS]
      refine ⟨by rw [hfst, if_neg hcol], by rw [hfst]⟩


/- ===== evaluation lemmas for the Sum/Avg export programs ===== -/

theorem envUpdate_same (env : Env) (v : VName) (x : Option ℚ) : envUpdate env v x v = x := by
  simp [envUpdate]

theorem envUpdate_ne (env : Env) (v : VName) (x : Option ℚ) (w : VName) (h : w ≠ v) :
    envUpdate env v x w = env w := by
  simp [envUpdate, h]

theorem xevalEnv_append (rd : RowData) (l1 l2 : List XOp) (env : Env) :
    xevalEnv rd (l1 ++ l2) env = xevalEnv rd l2 (xevalEnv rd l1 env) := by
  induction l1 generalizing env with
  | nil => rfl
  | cons op ops ih =>
    cases op with
    | def_ v f d c => simp [xevalEnv, ih]
    | cdef v ts => simp [xevalEnv, ih]
    | xportDef v l => simp [xevalEnv, ih]

theorem rpnEval_cons_some (env : Env) (t : RpnTok) (ts : List RpnTok)
    (st st2 : List (Option ℚ)) (h : rpnStep env st t = some st2) :
    rpnEval env (t :: ts) st = rpnEval env ts st2 := by
  have hu : rpnEval env (t :: ts) st =
      (match rpnStep env st t with
       | none => none
       | some st3 => rpnEval env ts st3) := rfl
  rw [hu, h]

theorem rpnEval_cons_none (env : Env) (t : RpnTok) (ts : List RpnTok)
    (st : List (Option ℚ)) (h : rpnStep env st t = none) :
    rpnEval env (t :: ts) st = none := by
  have hu : rpnEval env (t :: ts) st =
      (match rpnStep env st t with
       | none => none
       | some st3 => rpnEval env ts st3) := rfl
  rw [hu, h]

theorem rpnEval_append (env : Env) (l1 l2 : List RpnTok) (st : List (Option ℚ)) :
    rpnEval env (l1 ++ l2) st =
      (match rpnEval env l1 st with
       | none => none
       | some st2 => rpnEval env l2 st2) := by
  induction l1 generalizing st with
  | nil => rfl
  | cons t ts ih =>
    show rpnEval env (t :: (ts ++ l2)) st = _
    cases h : rpnStep env st t with
    | none => rw [rpnEval_cons_none env t _ st h, rpnEval_cons_none env t _ st h]
    | some st2 =>
      rw [rpnEval_cons_some env t _ st st2 h, rpnEval_cons_some env t _ st st2 h, ih st2]

theorem rpnEval_chain (env : Env) (ps : List (VName × ℚ)) :
    ∀ (a : ℚ) (st : List (Option ℚ)),
    (∀ p ∈ ps, env p.1 = some p.2) →
    rpnEval env ((ps.map Prod.fst).flatMap (fun w => [RpnTok.ref w, RpnTok.plus]))
      (some a :: st) = some (some (a + (ps.map Prod.snd).sum) :: st) := by
  induction ps with
  | nil =>
    intro a st _
    simp [rpnEval]
  | cons p ps ih =>
    intro a st hv
    have hp : env p.1 = some p.2 := hv p (List.mem_cons_self _ _)
    show rpnEval env
      (RpnTok.ref p.1 :: RpnTok.plus ::
        (ps.map Prod.fst).flatMap (fun w => [RpnTok.ref w, RpnTok.plus]))
      (some a :: st) = _
    rw [rpnEval_cons_some env _ _ _ (some p.2 :: some a :: st) (by simp [rpnStep, hp])]
    rw [rpnEval_cons_some env _ _ _ (some (a + p.2) :: st) (by simp [rpnStep, liftAdd])]
    rw [ih (a + p.2) st (fun x hx => hv x (List.mem_cons_of_mem _ hx))]
    simp [add_assoc]

theorem rpnEval_stackOf (env : Env) (ps : List (VName × ℚ)) (hne : ps ≠ [])
    (hv : ∀ p ∈ ps, env p.1 = some p.2) :
    rpnEval env (stackOf (ps.map Prod.fst)) [] = some [some ((ps.map Prod.snd).sum)] := by
  cases ps with
  | nil => exact absurd rfl hne
  | cons p ps =>
    have hp : env p.1 = some p.2 := hv p (List.mem_cons_self _ _)
    show rpnEval env
      (RpnTok.ref p.1 ::
        (ps.map Prod.fst).flatMap (fun w => [RpnTok.ref w, RpnTok.plus])) [] = _
    rw [rpnEval_cons_some env _ _ _ [some p.2] (by simp [rpnStep, hp])]
    rw [rpnEval_chain env ps p.2 [] (fun x hx => hv x (List.mem_cons_of_mem _ hx))]
    simp

theorem sumLoopStack_eq (ss : List Serie) : ∀ (idx : Nat) (acc : List RpnTok),
    sumLoopStack ss idx acc =
      (if acc.isEmpty then
         stackOf ((resolvPairs ss idx).map (fun p => VName.sumTmp 0 p.1))
       else
         acc ++ ((resolvPairs ss idx).map (fun p => VName.sumTmp 0 p.1)).flatMap
           (fun w => [RpnTok.ref w, RpnTok.plus])) := by
  induction ss with
  | nil =>
    intro idx acc
    cases acc with
    | nil => simp [sumLoopStack, resolvPairs, stackOf]
    | cons a as => simp [sumLoopStack, resolvPairs]
  | cons s rest ih =>
    intro idx acc
    cases hm : s.Metric with
    | none =>
      simp only [sumLoopStack, hm]
      rw [ih (idx + 1) acc]
      simp only [resolvPairs, hm]
    | some mr =>
      cases acc with
      | nil =>
        simp only [sumLoopStack, hm, List.isEmpty_nil, if_true, List.nil_append]
        rw [ih (idx + 1) [RpnTok.ref (VName.sumTmp 0 idx)]]
        simp only [resolvPairs, hm, List.map_cons, stackOf, List.isEmpty_cons,
          if_false, List.singleton_append]
        rfl
      | cons a as =>
        have hstep : sumLoopStack (s :: rest) idx (a :: as) =
            sumLoopStack rest (idx + 1)
              ((a :: as) ++ [RpnTok.ref (VName.sumTmp 0 idx), RpnTok.plus]) := by
          simp [sumLoopStack, hm]
        rw [hstep, ih (idx + 1) ((a :: as) ++ [RpnTok.ref (VName.sumTmp 0 idx), RpnTok.plus])]
        simp [resolvPairs, hm, List.append_assoc]


theorem resolvPairs_sndAll (ss : List Serie) : ∀ idx : Nat,
    (∀ s ∈ ss, s.Metric.isSome = true) →
    (resolvPairs ss idx).map Prod.snd = ss := by
  induction ss with
  | nil => intro idx _; rfl
  | cons s rest ih =>
    intro idx h
    cases hm : s.Metric with
    | none =>
      have hx := h s (List.mem_cons_self _ _)
      rw [hm] at hx
      exact absurd hx (by simp)
    | some mr =>
      simp only [resolvPairs, hm, List.map_cons]
      rw [ih (idx + 1) (fun t ht => h t (List.mem_cons_of_mem _ ht))]

/-- Value of the zero-substitution expression
`X,UN,0,X,IF` (rrd.go lines 272 and 282): unknown becomes zero, any other
value passes through. -/
theorem rpnRun_substExpr (env : Env) (v : VName) (x : Option ℚ) (henv : env v = x) :
    rpnRun env [RpnTok.ref v, RpnTok.un, RpnTok.num 0, RpnTok.ref v, RpnTok.if_] =
      some (x.getD 0) := by
  cases x with
  | none => simp [rpnRun, rpnEval, rpnStep, henv]
  | some q => simp [rpnRun, rpnEval, rpnStep, henv]

theorem sumLoopX_preserve (cat : Catalog) (rd : RowData) (ss : List Serie) :
    ∀ (idx : Nat) (env : Env) (v : VName),
    (∀ j, idx ≤ j → v ≠ VName.sumTmp 0 j ∧ v ≠ VName.sumTmpOri 0 j) →
    xevalEnv rd (sumLoopX cat ss idx) env v = env v := by
  induction ss with
  | nil => intro idx env v _; rfl
  | cons s rest ih =>
    intro idx env v hv
    cases hm : s.Metric with
    | none =>
      simp only [sumLoopX, hm]
      exact ih (idx + 1) env v (fun j hj => hv j (by omega))
    | some mr =>
      simp only [sumLoopX, hm, List.cons_append, List.nil_append, xevalEnv]
      rw [ih (idx + 1) _ v (fun j hj => hv j (by omega))]
      rw [envUpdate_ne _ _ _ _ (hv idx le_rfl).1, envUpdate_ne _ _ _ _ (hv idx le_rfl).2]

theorem sumLoopX_tmp (cat : Catalog) (rd : RowData) (ss : List Serie) :
    ∀ (idx : Nat) (env : Env), ∀ p ∈ resolvPairs ss idx,
    xevalEnv rd (sumLoopX cat ss idx) env (VName.sumTmp 0 p.1) =
      some (substVal cat rd p.2) := by
  induction ss with
  | nil => intro idx env p hp; exact absurd hp (by simp [resolvPairs])
  | cons s rest ih =>
    intro idx env p hp
    cases hm : s.Metric with
    | none =>
      simp only [resolvPairs, hm] at hp
      simp only [sumLoopX, hm]
      exact ih (idx + 1) env p hp
    | some mr =>
      simp only [resolvPairs, hm] at hp
      simp only [sumLoopX, hm, List.cons_append, List.nil_append, xevalEnv]
      rcases List.mem_cons.mp hp with hpe | hpt
      · subst hpe
        rw [sumLoopX_preserve cat rd rest (idx + 1) _ (VName.sumTmp 0 idx)
          (fun j hj =>
            ⟨fun hEq => by injection hEq with h1 h2; omega,
             fun hEq => VName.noConfusion hEq⟩)]
        rw [envUpdate_same]
        rw [rpnRun_substExpr _ _ _ (envUpdate_same env (VName.sumTmpOri 0 idx) _)]
        simp [substVal, serieData, hm]
      · exact ih (idx + 1) _ p hpt


theorem rpnRun_refOnly (env : Env) (v : VName) : rpnRun env [RpnTok.ref v] = env v := rfl

theorem xeval_sumBranch_tail (cat : Catalog) (rd : RowData) (ss : List Serie)
    (stack : List RpnTok) :
    xevalEnv rd
      (sumLoopX cat ss 0
       ++ [XOp.cdef (VName.sumOrig 0) stack,
           XOp.cdef (VName.serie 0) [RpnTok.ref (VName.sumOrig 0)],
           XOp.xportDef (VName.serie 0) (VName.serie 0).render])
      (fun _ => none) (VName.serie 0) =
      rpnRun (xevalEnv rd (sumLoopX cat ss 0) (fun _ => none)) stack := by
  rw [xevalEnv_append]
  simp only [xevalEnv]
  rw [envUpdate_same, rpnRun_refOnly, envUpdate_same]

theorem sumTmp_pairs_fst (prs : List (Nat × Serie)) (f : Serie → ℚ) :
    (prs.map (fun p => (VName.sumTmp 0 p.1, f p.2))).map Prod.fst =
      prs.map (fun p => VName.sumTmp 0 p.1) := by
  rw [List.map_map]
  rfl

theorem sumTmp_pairs_snd (prs : List (Nat × Serie)) (f : Serie → ℚ) :
    (prs.map (fun p => (VName.sumTmp 0 p.1, f p.2))).map Prod.snd =
      prs.map (fun p => f p.2) := by
  rw [List.map_map]
  rfl

theorem rrdRowValue_sum_mode (cat : Catalog) (rd : RowData) (q : GroupQuery)
    (hT : q.Typ = OperGroupTypeSum) (hSc : q.Scale = 0) (hlen : 2 ≤ q.Series.length)
    (hres : resolvPairs q.Series 0 ≠ []) :
    rrdRowValue cat q rd =
      some (((resolvPairs q.Series 0).map (fun p => substVal cat rd p.2)).sum) := by
  have h0 : ¬(q.Series.length = 0) := by omega
  have h1 : ¬(q.Series.length = 1) := by omega
  have hc : rrdCollapse q = q := rrdCollapse_of_not q (fun hx => h1 hx.2)
  have hN : ¬(q.Typ = OperGroupTypeNone) := by rw [hT]; decide
  have hAvg : ¬(q.Typ = OperGroupTypeAvg) := by rw [hT]; decide
  have hScn : ¬(q.Scale ≠ 0) := by rw [hSc]; simp
  have hmodel : rrdGetDataModel cat q [] false =
      (q, Except.ok (sumBranch cat q [] false)) := by
    rw [rrdGetDataModel_eq cat q [] false h0, hc, if_neg hN, if_pos (Or.inr hT)]
  have hxport : (sumBranch cat q [] false).xport =
      sumLoopX cat q.Series 0
      ++ [XOp.cdef (VName.sumOrig 0) (sumLoopStack q.Series 0 []),
          XOp.cdef (VName.serie 0) [RpnTok.ref (VName.sumOrig 0)],
          XOp.xportDef (VName.serie 0) (VName.serie 0).render] := by
    simp only [sumBranch, if_neg hAvg, if_neg hScn]
    simp
  have hrow : rrdRowValue cat q rd =
      xevalEnv rd (sumBranch cat q [] false).xport (fun _ => none) (VName.serie 0) := by
    simp only [rrdRowValue, hmodel]
  rw [hrow, hxport, xeval_sumBranch_tail]
  rw [sumLoopStack_eq q.Series 0 []]
  simp only [List.isEmpty_nil, if_true]
  have hv : ∀ p' ∈ (resolvPairs q.Series 0).map
      (fun p => (VName.sumTmp 0 p.1, substVal cat rd p.2)),
      (xevalEnv rd (sumLoopX cat q.Series 0) (fun _ => none)) p'.1 = some p'.2 := by
    intro p' hp'
    rcases List.mem_map.mp hp' with ⟨p, hp, rfl⟩
    exact sumLoopX_tmp cat rd q.Series 0 _ p hp
  have hne2 : (resolvPairs q.Series 0).map
      (fun p => (VName.sumTmp 0 p.1, substVal cat rd p.2)) ≠ [] := by
    simpa using hres
  have heval := rpnEval_stackOf
    (xevalEnv rd (sumLoopX cat q.Series 0) (fun _ => none)) _ hne2 hv
  rw [sumTmp_pairs_fst, sumTmp_pairs_snd] at heval
  simp only [rpnRun, heval]

theorem rrdRowValue_avg_mode (cat : Catalog) (rd : RowData) (q : GroupQuery)
    (hT : q.Typ = OperGroupTypeAvg) (hSc : q.Scale = 0) (hlen : 2 ≤ q.Series.length)
    (hres : resolvPairs q.Series 0 ≠ []) :
    rrdRowValue cat q rd =
      some ((((resolvPairs q.Series 0).map (fun p => substVal cat rd p.2)).sum) /
        (q.Series.length : ℚ)) := by
  have h0 : ¬(q.Series.length = 0) := by omega
  have h1 : ¬(q.Series.length = 1) := by omega
  have hc : rrdCollapse q = q := rrdCollapse_of_not q (fun hx => h1 hx.2)
  have hN : ¬(q.Typ = OperGroupTypeNone) := by rw [hT]; decide
  have hScn : ¬(q.Scale ≠ 0) := by rw [hSc]; simp
  have hmodel : rrdGetDataModel cat q [] false =
      (q, Except.ok (sumBranch cat q [] false)) := by
    rw [rrdGetDataModel_eq cat q [] false h0, hc, if_neg hN, if_pos (Or.inl hT)]
  have hxport : (sumBranch cat q [] false).xport =
      sumLoopX cat q.Series 0
      ++ [XOp.cdef (VName.sumOrig 0)
            (sumLoopStack q.Series 0 []
             ++ [RpnTok.num (q.Series.length : ℚ), RpnTok.div]),
          XOp.cdef (VName.serie 0) [RpnTok.ref (VName.sumOrig 0)],
          XOp.xportDef (VName.serie 0) (VName.serie 0).render] := by
    simp only [sumBranch, if_pos hT, if_neg hScn]
    simp
  have hrow : rrdRowValue cat q rd =
      xevalEnv rd (sumBranch cat q [] false).xport (fun _ => none) (VName.serie 0) := by
    simp only [rrdRowValue, hmodel]
  rw [hrow, hxport, xeval_sumBranch_tail]
  rw [sumLoopStack_eq q.Series 0 []]
  simp only [List.isEmpty_nil, if_true]
  have hv : ∀ p' ∈ (resolvPairs q.Series 0).map
      (fun p => (VName.sumTmp 0 p.1, substVal cat rd p.2)),
      (xevalEnv rd (sumLoopX cat q.Series 0) (fun _ => none)) p'.1 = some p'.2 := by
    intro p' hp'
    rcases List.mem_map.mp hp' with ⟨p, hp, rfl⟩
    exact sumLoopX_tmp cat rd q.Series 0 _ p hp
  have hne2 : (resolvPairs q.Series 0).map
      (fun p => (VName.sumTmp 0 p.1, substVal cat rd p.2)) ≠ [] := by
    simpa using hres
  have heval := rpnEval_stackOf
    (xevalEnv rd (sumLoopX cat q.Series 0) (fun _ => none)) _ hne2 hv
  rw [sumTmp_pairs_fst, sumTmp_pairs_snd] at heval
  have hlenQ : ((q.Series.length : ℚ)) ≠ 0 := Nat.cast_ne_zero.mpr (by omega)
  simp only [rpnRun, rpnEval_append, heval]
  simp [rpnEval, rpnStep, liftDiv, hlenQ]


/- ===== claims C7 and C1 ===== -/

/-- Claim C7: in Sum mode, every resolvable series' temporary substitutes
the unknown marker with numeric zero before accumulation: for a Sum query
(k at least 2, all series resolvable, no group scale) in which one series
reads an unknown sample at the examined row and the others read numeric
values, the merged sample at that row is exactly the sum of the numeric
values — a defined number, not the unknown marker. -/
theorem C7_sum_substitutes_unknown (cat : Catalog) (rd : RowData) (q : GroupQuery)
    (pre post : List Serie) (su : Serie)
    (hT : q.Typ = OperGroupTypeSum) (hSc : q.Scale = 0)
    (hSer : q.Series = pre ++ su :: post)
    (hlen : 2 ≤ q.Series.length)
    (hres : ∀ s ∈ q.Series, s.Metric.isSome = true)
    (hun : serieData cat rd su = none)
    (hnum : ∀ s ∈ pre ++ post, (serieData cat rd s).isSome = true) :
    (∀ s ∈ pre ++ post, serieData cat rd s = some (substVal cat rd s)) ∧
    rrdRowValue cat q rd =
      some ((pre.map (substVal cat rd)).sum + (post.map (substVal cat rd)).sum) := by
  constructor
  · intro s hs
    rcases Option.isSome_iff_exists.mp (hnum s hs) with ⟨v, hv⟩
    rw [hv]
    simp [substVal, serieData] at hv ⊢
    simp [hv]
  · have hpairsnd : (resolvPairs q.Series 0).map Prod.snd = q.Series :=
      resolvPairs_sndAll q.Series 0 hres
    have hresne : resolvPairs q.Series 0 ≠ [] := by
      intro hnil
      have hlen2 := congrArg List.length hpairsnd
      rw [hnil] at hlen2
      simp at hlen2
      omega
    rw [rrdRowValue_sum_mode cat rd q hT hSc hlen hresne]
    have hmap : (resolvPairs q.Series 0).map (fun p => substVal cat rd p.2) =
        q.Series.map (substVal cat rd) := by
      calc (resolvPairs q.Series 0).map (fun p => substVal cat rd p.2)
          = ((resolvPairs q.Series 0).map Prod.snd).map (substVal cat rd) := by
            rw [List.map_map]
            rfl
        _ = q.Series.map (substVal cat rd) := by rw [hpairsnd]
    have h0 : substVal cat rd su = 0 := by simp [substVal, hun]
    rw [hmap, hSer]
    simp [List.sum_append, h0]

/-- Witness for C7: Sum over three resolvable series reading 6, unknown
and 4 at the examined row merges to 6 + 4 = 10. -/
theorem C7_witness :
    qC7.Typ = OperGroupTypeSum ∧
    qC7.Series = [serA] ++ serB :: [serC] ∧
    serieData catCex rdCex serB = none ∧
    (∀ s ∈ [serA] ++ [serC], (serieData catCex rdCex s).isSome = true) ∧
    rrdRowValue catCex qC7 rdCex =
      some ((([serA]).map (substVal catCex rdCex)).sum
        + (([serC]).map (substVal catCex rdCex)).sum) ∧
    rrdRowValue catCex qC7 rdCex = some 10 := by
  have hmain := C7_sum_substitutes_unknown catCex rdCex qC7 [serA] [serC] serB
    rfl rfl rfl (by decide) (by decide) (by decide) (by decide)
  refine ⟨rfl, rfl, by decide, by decide, hmain.2, ?_⟩
  rw [hmain.2]
  have hA : substVal catCex rdCex serA = 6 := rfl
  have hC : substVal catCex rdCex serC = 4 := rfl
  simp [hA, hC]
  norm_num

theorem sumLoopX_no_sumOrig (cat : Catalog) (ss : List Serie) : ∀ idx : Nat,
    (sumLoopX cat ss idx).filterMap (fun op => match op with
      | XOp.cdef v ts => if v = VName.sumOrig 0 then some ts else none
      | _ => none) = [] := by
  induction ss with
  | nil => intro idx; rfl
  | cons s rest ih =>
    intro idx
    cases hm : s.Metric with
    | none =>
      simp only [sumLoopX, hm]
      exact ih (idx + 1)
    | some mr =>
      simp only [sumLoopX, hm, List.cons_append, List.nil_append]
      simp only [List.filterMap_cons]
      simp [ih (idx + 1)]

/-- The accumulated Sum/Avg expression an Avg query compiles: the stack of
the resolvable temporaries followed by division by the literal count of
ALL configured series (`strconv.Itoa(len(query.Series))`, rrd.go line
293). -/
theorem avg_stack_shape (cat : Catalog) (q : GroupQuery)
    (hT : q.Typ = OperGroupTypeAvg) (hSc : q.Scale = 0)
    (hlen : 2 ≤ q.Series.length) :
    sumOrigStack (rrdGetDataModel cat q [] false).2 =
      some (stackOf ((resolvPairs q.Series 0).map (fun p => VName.sumTmp 0 p.1))
        ++ [RpnTok.num (q.Series.length : ℚ), RpnTok.div]) := by
  have h0 : ¬(q.Series.length = 0) := by omega
  have h1 : ¬(q.Series.length = 1) := by omega
  have hc : rrdCollapse q = q := rrdCollapse_of_not q (fun hx => h1 hx.2)
  have hN : ¬(q.Typ = OperGroupTypeNone) := by rw [hT]; decide
  have hScn : ¬(q.Scale ≠ 0) := by rw [hSc]; simp
  have hmodel : rrdGetDataModel cat q [] false =
      (q, Except.ok (sumBranch cat q [] false)) := by
    rw [rrdGetDataModel_eq cat q [] false h0, hc, if_neg hN, if_pos (Or.inl hT)]
  have hxport : (sumBranch cat q [] false).xport =
      sumLoopX cat q.Series 0
      ++ [XOp.cdef (VName.sumOrig 0)
            (sumLoopStack q.Series 0 []
             ++ [RpnTok.num (q.Series.length : ℚ), RpnTok.div]),
          XOp.cdef (VName.serie 0) [RpnTok.ref (VName.sumOrig 0)],
          XOp.xportDef (VName.serie 0) (VName.serie 0).render] := by
    simp only [sumBranch, if_pos hT, if_neg hScn]
    simp
  rw [hmodel]
  simp only [sumOrigStack]
  rw [hxport, List.filterMap_append, sumLoopX_no_sumOrig cat q.Series 0]
  rw [sumLoopStack_eq q.Series 0 []]
  simp

/-- Claim C1 amended: for an Avg group query (at least two configured
series, no group scale, at least one resolvable series), the compiled
program's final division step divides the accumulated sum by the number of
ALL CONFIGURED series of the query — not by the number of resolvable
series: the accumulated expression ends in the literal
`len(query.Series)` followed by the division operator, and the evaluated
merged sample is the sum of the resolvable series' zero-substituted values
divided by the configured series count. -/
theorem C1_avg_divides_by_configured_count (cat : Catalog) (rd : RowData)
    (q : GroupQuery) (hT : q.Typ = OperGroupTypeAvg) (hSc : q.Scale = 0)
    (hlen : 2 ≤ q.Series.length) (hres : resolvPairs q.Series 0 ≠ []) :
    (sumOrigStack (rrdGetDataModel cat q [] false).2 =
      some (stackOf ((resolvPairs q.Series 0).map (fun p => VName.sumTmp 0 p.1))
        ++ [RpnTok.num (q.Series.length : ℚ), RpnTok.div])) ∧
    rrdRowValue cat q rd =
      some ((((resolvPairs q.Series 0).map (fun p => substVal cat rd p.2)).sum) /
        (q.Series.length : ℚ)) :=
  ⟨avg_stack_shape cat q hT hSc hlen,
   rrdRowValue_avg_mode cat rd q hT hSc hlen hres⟩

/-- Counterexample to claim C1: an Avg query with two configured series of
which only one resolves compiles a division by 2 (the configured count),
so at a row where the resolvable series reads 6 the merged sample is 3 —
not 6, the value the claim's division by the resolvable count (1) would
produce. -/
theorem C1_counterexample :
    resolvableCount qC1 = 1 ∧
    qC1.Series.length = 2 ∧
    sumOrigStack (rrdGetDataModel catCex qC1 [] false).2 =
      some [RpnTok.ref (VName.sumTmp 0 0), RpnTok.num 2, RpnTok.div] ∧
    rrdRowValue catCex qC1 rdCex = some 3 ∧
    rrdRowValue catCex qC1 rdCex ≠
      some (substVal catCex rdCex serOne / (resolvableCount qC1 : ℚ)) := by
  have hres : resolvPairs qC1.Series 0 ≠ [] := by decide
  have hpairs : resolvPairs qC1.Series 0 = [(0, serOne)] := rfl
  have hv := rrdRowValue_avg_mode catCex rdCex qC1 rfl rfl (by decide) hres
  have hsub : substVal catCex rdCex serOne = 6 := rfl
  have hlen2 : qC1.Series.length = 2 := rfl
  have hval : rrdRowValue catCex qC1 rdCex = some 3 := by
    rw [hv, hpairs, hlen2]
    simp [hsub]
    norm_num
  refine ⟨by decide, by decide, ?_, hval, ?_⟩
  · rw [avg_stack_shape catCex qC1 rfl rfl (by decide), hpairs, hlen2]
    simp [stackOf]
  · rw [hval]
    have hrc : resolvableCount qC1 = 1 := by decide
    rw [hsub, hrc]
    norm_num

/-- Witness for C1 amended at the concrete Avg query. -/
theorem C1_witness :
    qC1.Typ = OperGroupTypeAvg ∧ qC1.Scale = 0 ∧ 2 ≤ qC1.Series.length ∧
    resolvPairs qC1.Series 0 ≠ [] ∧
    (sumOrigStack (rrdGetDataModel catCex qC1 [] false).2 =
      some (stackOf ((resolvPairs qC1.Series 0).map (fun p => VName.sumTmp 0 p.1))
        ++ [RpnTok.num (qC1.Series.length : ℚ), RpnTok.div])) ∧
    rrdRowValue catCex qC1 rdCex =
      some ((((resolvPairs qC1.Series 0).map (fun p => substVal catCex rdCex p.2)).sum) /
        (qC1.Series.length : ℚ)) :=
  ⟨rfl, rfl, by decide, by decide,
   (C1_avg_divides_by_configured_count catCex rdCex qC1 rfl rfl (by decide) (by decide)).1,
   (C1_avg_divides_by_configured_count catCex rdCex qC1 rfl rfl (by decide) (by decide)).2⟩
